import Mathlib

/-!
Verification of the objecticon rule-gated object store engine.

The development shallowly embeds the engine's JavaScript source:
 - `src/index.js` (the `Objecticon` orchestrator: rule engine, change
   application, public workflows), and
 - the `DataStore` module (multi-driver store: read routing, write fan-out,
   audit logging).

JavaScript values are modelled by `JVal` (with `undefined` rendered as
`Option`-absence at lookup sites), callback errors by `JsErr`, and the
asynchronous callback pipelines (`async.series` / `async.each`) by explicit
`Except`-style sequencing in which a fan-out determinizes to list order:
every item is invoked once and the first error in list order is the error
surfaced, matching the `async.each` contract used by the source.
Storage drivers are modelled as recording stubs (configurable results and
errors, plus a log of the calls they received), which is exactly the shape
the source's driver adapter contract requires of a backend.
-/

namespace Objecticon

/-- A JavaScript runtime value as used by the engine: `null`, booleans,
numbers (integer-valued, which covers every value the engine computes with),
strings, `Date` objects (a timestamp), arrays, and plain objects as ordered
key/value lists (JS objects preserve insertion order). -/
inductive JVal where
  | null : JVal
  | bool : Bool → JVal
  | num : Int → JVal
  | str : String → JVal
  | date : Nat → JVal
  | arr : List JVal → JVal
  | obj : List (String × JVal) → JVal
deriving Repr

mutual

/-- Decidable structural equality on `JVal`. -/
def JVal.beq : JVal → JVal → Bool
  | .null, .null => true
  | .bool a, .bool b => a == b
  | .num a, .num b => a == b
  | .str a, .str b => a == b
  | .date a, .date b => a == b
  | .arr a, .arr b => JVal.beqList a b
  | .obj a, .obj b => JVal.beqFields a b
  | _, _ => false

def JVal.beqList : List JVal → List JVal → Bool
  | [], [] => true
  | a :: as, b :: bs => JVal.beq a b && JVal.beqList as bs
  | _, _ => false

def JVal.beqFields : List (String × JVal) → List (String × JVal) → Bool
  | [], [] => true
  | (ka, va) :: as, (kb, vb) :: bs => ka == kb && JVal.beq va vb && JVal.beqFields as bs
  | _, _ => false

end

instance : BEq JVal := ⟨JVal.beq⟩

/-- Look a field up on a JS object; `none` models `undefined`. -/
def JVal.getField : JVal → String → Option JVal
  | .obj fs, k => fs.lookup k
  | _, _ => none

/-- `typeof v[k] !== 'undefined'` — the field exists on the object. -/
def JVal.hasField (v : JVal) (k : String) : Bool :=
  (v.getField k).isSome

/-- Assign a field on a JS object: an existing key keeps its position, a new
key is appended (JS property insertion order). On a non-object the
assignment is dropped (primitive property writes are silently discarded in
JS; writes to `null` are modelled where they matter, at `_createObject`). -/
def JVal.setField : JVal → String → JVal → JVal
  | .obj fs, k, x =>
    .obj (if (fs.lookup k).isSome
      then fs.map (fun p => if p.1 = k then (k, x) else p)
      else fs ++ [(k, x)])
  | v, _, _ => v

/-- `delete v[k]` on a JS object. -/
def JVal.delField : JVal → String → JVal
  | .obj fs, k => .obj (fs.filter (fun p => p.1 ≠ k))
  | v, _ => v

/-- Array element read; `none` models `undefined`. -/
def JVal.getIdx : JVal → Nat → Option JVal
  | .arr xs, i => xs.get? i
  | _, _ => none

/-- Array element write `arr[i] = x`; indexing past the end pads with `null`
(JS sparse slots read back as `undefined`; the engine never reads such
slots, so `null` padding is an adequate rendering). -/
def JVal.setIdx : JVal → Nat → JVal → JVal
  | .arr xs, i, x =>
    if i < xs.length then .arr (xs.set i x)
    else .arr (xs ++ List.replicate (i - xs.length) .null ++ [x])
  | v, _, _ => v

/-- One segment of a deep-diff change path: an object key or an array
index (deep-diff records numeric segments for array positions). -/
inductive PathSeg where
  | key : String → PathSeg
  | idx : Nat → PathSeg
deriving DecidableEq, Repr

/-- A path segment rendered as a string, as `Array.prototype.join` does. -/
def PathSeg.toStr : PathSeg → String
  | .key s => s
  | .idx n => toString n

/-- deep-diff change kinds: `N` new, `E` edited, `D` deleted, `A` array
change. -/
inductive CKind where
  | N | E | D | A
deriving DecidableEq, Repr

/-- A leaf array-change item (`change.item` of an `A` change). The
dependency allows arbitrarily nested array changes; the engine's diffs only
ever carry leaf items, which is the shape modelled here. -/
structure AItem where
  kind : CKind
  rhs : JVal := .null
deriving Repr

/-- Modelled from the deep-diff dependency: a single structural Change —
`kind`, `path` (segments locating the edit), `rhs`/`lhs` values, and for
array changes the element `index` and the `item` applied there. -/
structure Change where
  kind : CKind
  path : List PathSeg
  rhs : JVal := .null
  lhs : JVal := .null
  index : Nat := 0
  item : Option AItem := none
deriving Repr

/-- Read `it[seg]` during path navigation (object key or array index). A
numeric segment used on an object reads the stringified property, as JS
does. -/
def navGet (v : JVal) (s : PathSeg) : Option JVal :=
  match v, s with
  | .obj _, .key k => v.getField k
  | .obj _, .idx n => v.getField (toString n)
  | .arr _, .idx n => v.getIdx n
  | _, _ => none

/-- Write `it[seg] = x` during path navigation. -/
def navSet (v : JVal) (s : PathSeg) (x : JVal) : JVal :=
  match v, s with
  | .obj _, .key k => v.setField k x
  | .obj _, .idx n => v.setField (toString n) x
  | .arr _, .idx n => v.setIdx n x
  | _, _ => v

/-- `delete it[seg]` at the end of a path; on an array, deep-diff's `D`
path case also uses `delete`, leaving a hole, rendered here by removal. -/
def navDel (v : JVal) (s : PathSeg) : JVal :=
  match v, s with
  | .obj _, .key k => v.delField k
  | .arr xs, .idx n => .arr (xs.take n ++ xs.drop (n + 1))
  | v, _ => v

/-- Modelled from the deep-diff dependency's `applyArrayChange` for a leaf
item: `N`/`E` set the element at `index`, `D` removes it. -/
def applyArrayChange (arr : JVal) (index : Nat) (item : Option AItem) : JVal :=
  match item with
  | none => arr
  | some it =>
    match it.kind with
    | .N | .E => arr.setIdx index it.rhs
    | .D =>
      match arr with
      | .arr xs => .arr (xs.take index ++ xs.drop (index + 1))
      | v => v
    | .A => arr

/-- The final step of `applyChange` once navigation reaches the last path
segment: `N`/`E` assign `rhs`, `D` deletes, `A` applies the array item at
`change.index` inside `it[seg]`. -/
def applyLast (it : JVal) (s : PathSeg) (c : Change) : JVal :=
  match c.kind with
  | .N | .E => navSet it s c.rhs
  | .D => navDel it s
  | .A => navSet it s (applyArrayChange ((navGet it s).getD (.arr [])) c.index c.item)

/-- Modelled from the deep-diff dependency's `applyChange(target, true,
change)`: walk the path, creating a missing intermediate as `[]` when the
next segment is numeric and `{}` otherwise (tolerant apply), then perform
the edit at the last segment. A change with an empty path (never produced
by the engine's diffs) leaves the target unchanged. -/
def applyChangeAt (it : JVal) : List PathSeg → Change → JVal
  | [], _ => it
  | [s], c => applyLast it s c
  | s :: s2 :: rest, c =>
    let child := match navGet it s with
      | some x => x
      | none => match s2 with
        | .idx _ => .arr []
        | .key _ => .obj []
    navSet it s (applyChangeAt child (s2 :: rest) c)

/-- `diff.applyChange(target, true, change)` as invoked by the engine. -/
def applyChange (target : JVal) (change : Change) : JVal :=
  applyChangeAt target change.path change

/-- `change.path.join('.')` — the field name a Change is checked under. -/
def joinPath (path : List PathSeg) : String :=
  String.intercalate "." (path.map PathSeg.toStr)

/-- The options object a read operation forwards to the servicing driver;
`_getLog` builds `{sort: {createdAt: -1}, limit: …}`. `none` at a call
site models the `{}` substituted when the caller passed no options. -/
structure ReadOptions where
  sortCreatedAt : Int := -1
  limit : Int := 10
deriving DecidableEq, Repr

/-- A storage-driver adapter, modelled as a recording stub: configurable
read results and write errors (the driver contract of §4.1 — get/query/
search return an object, a sequence, or null; put/delete report an error
or success), plus a log of every call received, which is how the source's
multi-write and routing behavior is observed. -/
structure StubDriver where
  authoritative : String := ""
  readResult : String → String → JVal → Except String (Option JVal) := fun _ _ _ => .ok none
  putError : Option String := none
  deleteError : Option String := none
  readCalls : List (String × String × JVal × Option ReadOptions) := []
  putCalls : List (String × JVal) := []
  deleteCalls : List (String × String) := []

/-- Split a character list at every occurrence of the separator — the
character-level rendering of JS `String.prototype.split`. -/
def splitChars (sep : Char) : List Char → List (List Char)
  | [] => [[]]
  | x :: xs =>
    match splitChars sep xs, decide (x = sep) with
    | r, true => [] :: r
    | g :: gs, false => (x :: g) :: gs
    | [], false => [[x]]

/-- The capability list of an adapter:
`obj.options.authoritative ? obj.options.authoritative.split(',') : []`. -/
def authList (d : StubDriver) : List String :=
  if d.authoritative = "" then []
  else (splitChars ',' d.authoritative.data).map (fun g => String.mk g)

/-- `_getAuthoritative(array, operation)`: `array.some` stops at the first
adapter whose capability list contains the operation. -/
def _getAuthoritative (array : List StubDriver) (operation : String) : Option StubDriver :=
  array.find? (fun obj => (authList obj).contains operation)

/-- Dispatch a read to the first authoritative adapter in order, recording
the call on that adapter alone; `none` when no adapter is authoritative.
The adapters before and after the servicing one are returned untouched. -/
def readDispatch (operation type_ : String) (criteria : JVal) (options : Option ReadOptions) :
    List StubDriver → Option (List StubDriver × Except String (Option JVal))
  | [] => none
  | d :: rest =>
    if (authList d).contains operation then
      some ({ d with readCalls := d.readCalls ++ [(operation, type_, criteria, options)] } :: rest,
        d.readResult operation type_ criteria)
    else
      (readDispatch operation type_ criteria options rest).map (fun p => (d :: p.1, p.2))

/-- `DataStore.prototype._handleReadOperation`: route the read to the
single authoritative adapter, or fail with `Error('No drivers
available.')`. -/
def _handleReadOperation (operation : String) (handlers : List StubDriver) (type_ : String)
    (criteria : JVal) (options : Option ReadOptions) :
    List StubDriver × Except String (Option JVal) :=
  match readDispatch operation type_ criteria options handlers with
  | none => (handlers, .error "No drivers available.")
  | some (hs, r) => (hs, r)

/-- One adapter receiving `driver.put(type, object, next)`: the call is
recorded (the write is applied) and the adapter's configured error, if
any, is reported. -/
def driverPut (type_ : String) (object : JVal) (d : StubDriver) : StubDriver × Option String :=
  ({ d with putCalls := d.putCalls ++ [(type_, object)] }, d.putError)

/-- One adapter receiving `driver.delete(type, id, next)`. -/
def driverDelete (type_ id : String) (d : StubDriver) : StubDriver × Option String :=
  ({ d with deleteCalls := d.deleteCalls ++ [(type_, id)] }, d.deleteError)

/-- `async.each` write fan-out: every adapter is invoked exactly once; the
final callback receives the first error encountered (list order in this
determinization), or nothing when all succeed. Completed writes stay
applied — there is no rollback path. -/
def fanoutPut (drivers : List StubDriver) (type_ : String) (object : JVal) :
    List StubDriver × Option String :=
  ((drivers.map (driverPut type_ object)).map Prod.fst,
   ((drivers.map (driverPut type_ object)).map Prod.snd).findSome? id)

/-- `async.each` fan-out of `driver.delete`. -/
def fanoutDelete (drivers : List StubDriver) (type_ id : String) :
    List StubDriver × Option String :=
  ((drivers.map (driverDelete type_ id)).map Prod.fst,
   ((drivers.map (driverDelete type_ id)).map Prod.snd).findSome? (fun e => e))

/-- The audit log entry `DataStore.prototype.log` builds:
`extend({createdAt: new Date()}, _defaultLogEntry, options)` — key order
createdAt, action, type, objectId, meta; an `undefined` objectId (object
without the id field) leaves the default `null`. -/
def auditLogEntry (now : Nat) (action type_ : String) (objectId meta : JVal) : JVal :=
  .obj [("createdAt", .date now), ("action", .str action), ("type", .str type_),
        ("objectId", objectId), ("meta", meta)]

/-- `DataStore.prototype.log`: fan the entry out to every log adapter via
`logger.put('auditlogentry', entry)`. -/
def DataStore.log (loggers : List StubDriver) (entry : JVal) : List StubDriver × Option String :=
  fanoutPut loggers "auditlogentry" entry

/-- What a `put`/`delete` leaves behind: the driver and logger states, the
error delivered to the caller's callback, and the audit entry logged. -/
structure WriteOutcome where
  drivers : List StubDriver
  loggers : List StubDriver
  callerError : Option String
  entry : JVal

/-- `DataStore.prototype.put`: fan the write out to all data adapters,
deliver the fan-out's error (if any) to the caller, then attempt the audit
log against the log adapters with a callback that ignores its error. -/
def DataStore.put (now : Nat) (idField : String) (drivers loggers : List StubDriver)
    (type_ : String) (object meta : JVal) : WriteOutcome :=
  let fanned := fanoutPut drivers type_ object
  let entry := auditLogEntry now "put" type_ ((object.getField idField).getD .null) meta
  let logged := DataStore.log loggers entry
  { drivers := fanned.1, loggers := logged.1, callerError := fanned.2, entry := entry }

/-- `DataStore.prototype.delete`: same fan-out-then-log discipline, with
the object id logged directly. -/
def DataStore.delete (now : Nat) (drivers loggers : List StubDriver)
    (type_ id : String) (meta : JVal) : WriteOutcome :=
  let fanned := fanoutDelete drivers type_ id
  let entry := auditLogEntry now "delete" type_ (.str id) meta
  let logged := DataStore.log loggers entry
  { drivers := fanned.1, loggers := logged.1, callerError := fanned.2, entry := entry }

/-- `DataStore.prototype.getLog`: a read routed against the log-adapter
set with the `query` capability, over the `auditlogentry` type. -/
def DataStore.getLog (loggers : List StubDriver) (type_ id : String) (options : Option ReadOptions) :
    List StubDriver × Except String (Option JVal) :=
  _handleReadOperation "query" loggers "auditlogentry"
    (.obj [("type", .str type_), ("objectId", .str id)]) options

/-- The structured error object the engine reports:
`{error, message, code}`. -/
structure JErr where
  error : String
  message : String
  code : Int
deriving DecidableEq, Repr

/-- Anything a callback's error slot can carry: a structured `JErr` or a
JS `Error(message)` (as the datastore raises). -/
inductive JsErr where
  | jobj : JErr → JsErr
  | exn : String → JsErr
deriving DecidableEq, Repr

/-- The per-call Operation Context (`opts`), as the orchestrator threads
it through a pipeline: identification of the call, the incoming overlay or
explicit changeset, and the accumulated results. `none` models an
`undefined` field. -/
structure Opts where
  type_ : String := ""
  action : String := ""
  field : Option String := none
  change : Option Change := none
  id : String := ""
  allowMissing : Bool := false
  creating : Bool := false
  overlay : Option JVal := none
  changes : Option (List Change) := none
  limit : Option Int := none
  meta : JVal := .null
  results : JVal := .null
  updated : JVal := .null

/-- A rule callback: receives the Operation Context, passes (`none`) or
vetoes with an error. -/
def Rule : Type := Opts → Option JsErr

/-- The rule registry `self.rules[type][action][fieldKey]`. The third key
is a JS property name: a `null` field is stored and looked up under the
property `"null"`. -/
def RuleMap : Type := String → String → String → List Rule

/-- The JS property name a field keys rules under (`null` → `"null"`). -/
def fieldKey : Option String → String
  | none => "null"
  | some s => s

/-- `opts.field || null`: the empty string is falsy and collapses to
`null`. -/
def jsOrNull : Option String → Option String
  | none => none
  | some s => if s = "" then none else some s

/-- `Objecticon.prototype.addRule` (with an explicit field argument): push
the rule under the lowercased `(type, action, field)` key. -/
def addRule (rules : RuleMap) (type_ action : String) (field : Option String) (rule : Rule) :
    RuleMap :=
  fun t a f =>
    if t = type_.toLower ∧ a = action.toLower ∧ f = fieldKey field
    then rules t a f ++ [rule]
    else rules t a f

/-- The engine state an `Objecticon` instance holds: the strict option,
the rule registry, and the datastore's driver and logger sets plus the
object factory and configured id field. -/
structure OState where
  strict : Bool := true
  rules : RuleMap := fun _ _ _ => []
  drivers : List StubDriver := []
  loggers : List StubDriver := []
  create : String → JVal := fun _ => .null
  idField : String := "id"

/-- The permission error `_checkRules` denies with. -/
def permissionDenied : JErr :=
  ⟨"permission denied", "You do not have the required permissions.", 400⟩

/-- `Objecticon.prototype._checkRules`: lowercase the type and action,
collapse a falsy field to `null`, look the rule list up; when the field is
`null`, strict mode is on and the list is empty, deny with a permission
error; otherwise run every rule (`async.each`) and surface the first
failure, or pass. -/
def _checkRules (st : OState) (opts : Opts) : Option JsErr :=
  let type_ := opts.type_.toLower
  let action := opts.action.toLower
  let field := jsOrNull opts.field
  let rules := st.rules type_ action (fieldKey field)
  if field.isNone && st.strict && rules.isEmpty then
    some (.jobj permissionDenied)
  else
    rules.findSome? (fun rule => rule opts)

/-- `Objecticon.prototype._checkTypeRules`: a whole-object check —
`_checkRules` on a copy of the context with the action overridden (and no
field set by the orchestrator's call sites). -/
def _checkTypeRules (st : OState) (opts : Opts) (action : String) : Option JsErr :=
  _checkRules st { opts with action := action }

/-- `Objecticon.prototype._checkDiffRules`: for every Change of the
changeset (`async.each`, first failure surfaced), derive the field as
`change.path.join('.')` and run `_checkRules` with action, field and
change overridden. The pipelines only reach this stage with a changeset
present; an absent one checks nothing. -/
def _checkDiffRules (st : OState) (opts : Opts) (action : String) : Option JsErr :=
  (opts.changes.getD []).findSome? (fun change =>
    _checkRules st { opts with
      action := action, field := some (joinPath change.path), change := some change })

/-- `opts.limit || 10`: an omitted or zero limit falls back to the
default. -/
def jsOrD (v : Option Int) (d : Int) : Int :=
  match v with
  | none => d
  | some n => if n = 0 then d else n

/-- `Math.min(opts.limit || 10, 100)` — the limit `_getLog` computes. -/
def getLogLimit (limit : Option Int) : Int :=
  min (jsOrD limit 10) 100

/-- The options object `_getLog` passes to `ds.getLog`:
`{sort: {createdAt: -1}, limit: Math.min(opts.limit || 10, 100)}`. -/
def _getLogOptions (opts : Opts) : ReadOptions :=
  { sortCreatedAt := -1, limit := getLogLimit opts.limit }

/-- A pipeline stage failure: a callback error, or an uncaught JS
`TypeError` thrown synchronously (which no callback ever receives). -/
inductive Failure where
  | err : JsErr → Failure
  | crash : String → Failure
deriving DecidableEq, Repr

/-- `Objecticon.prototype._getLog`: clamp the limit, route the read
against the log adapters, and store the entries in the context. -/
def _getLog (st : OState) (opts : Opts) : OState × Except Failure Opts :=
  let r := DataStore.getLog st.loggers opts.type_ opts.id (some (_getLogOptions opts))
  let st2 := { st with loggers := r.1 }
  match r.2 with
  | .error msg => (st2, .error (.err (.exn msg)))
  | .ok entries => (st2, .ok { opts with results := entries.getD .null })

/-- `extend(true, {}, opts.results)`: the node-extend deep copy. On pure
values a deep copy of an object is the object's value itself; a non-object
source leaves the fresh `{}` target empty. -/
def extendDeepCopy : JVal → JVal
  | .obj fs => .obj fs
  | _ => .obj []

/-- `Objecticon.prototype._applyChanges`, verbatim from the source: deep
copy the current object, apply each change in sequence
(`diff.applyChange(opts.updated, true, change)`), then — the source
literally tests `typeof opts.updated.updateAt !== 'undefined'` (note the
key `updateAt`) and, when that test passes, assigns
`opts.updated.updatedAt = new Date()`. An `undefined` changeset crashes on
`opts.changes.forEach`. -/
def _applyChanges (now : Nat) (opts : Opts) : Except Failure Opts :=
  match opts.changes with
  | none => .error (.crash "TypeError: Cannot read property forEach of undefined")
  | some changes =>
    let copied := changes.foldl applyChange (extendDeepCopy opts.results)
    let updated :=
      if copied.hasField "updateAt" then copied.setField "updatedAt" (.date now) else copied
    .ok { opts with updated := updated }

/-- `Objecticon.prototype._createObject`: manufacture a default instance
through the factory and assign a freshly generated uuid to its `id`
property. A `null` factory result makes the property assignment throw. -/
def _createObject (st : OState) (opts : Opts) (freshId : String) : Except Failure Opts :=
  match st.create opts.type_ with
  | .obj fs => .ok { opts with
      results := (JVal.obj fs).setField "id" (.str freshId), creating := true }
  | _ => .error (.crash "TypeError: Cannot set property id of null")

/-- `Objecticon.prototype._getObject`: fetch by id through the datastore;
a missing object is a 404 unless `allowMissing`, in which case a fresh
object is created in its place. -/
def _getObject (st : OState) (opts : Opts) (freshId : String) :
    OState × Except Failure Opts :=
  let r := _handleReadOperation "get" st.drivers opts.type_ (.str opts.id) none
  let st2 := { st with drivers := r.1 }
  match r.2 with
  | .error msg => (st2, .error (.err (.exn msg)))
  | .ok (some object) => (st2, .ok { opts with results := object })
  | .ok none =>
    if opts.allowMissing then
      (st2, _createObject st2 opts freshId)
    else
      (st2, .error (.err (.jobj
        ⟨"invalid id", "There is no " ++ opts.type_ ++ " with id: " ++ opts.id, 404⟩)))

mutual

/-- `JSON.stringify` over the modelled values (escaping details of string
literals follow Lean's renderer; nothing in the engine observes the
serialized text). -/
def JVal.toJson : JVal → String
  | .null => "null"
  | .bool b => if b then "true" else "false"
  | .num n => toString n
  | .str s => s.quote
  | .date t => "\"date:" ++ toString t ++ "\""
  | .arr xs => "[" ++ JVal.toJsonList xs ++ "]"
  | .obj fs => "\x7b" ++ JVal.toJsonFields fs ++ "\x7d"

def JVal.toJsonList : List JVal → String
  | [] => ""
  | [x] => JVal.toJson x
  | x :: xs => JVal.toJson x ++ "," ++ JVal.toJsonList xs

def JVal.toJsonFields : List (String × JVal) → String
  | [] => ""
  | [(k, v)] => k.quote ++ ":" ++ JVal.toJson v
  | (k, v) :: fs => k.quote ++ ":" ++ JVal.toJson v ++ "," ++ JVal.toJsonFields fs

end

/-- A path segment as `JSON.stringify` renders it inside a change. -/
def PathSeg.toJson : PathSeg → String
  | .key s => s.quote
  | .idx n => toString n

/-- `CKind` serialized. -/
def CKind.toStr : CKind → String
  | .N => "N"
  | .E => "E"
  | .D => "D"
  | .A => "A"

/-- A single change serialized (the fields the model carries). -/
def Change.toJson (c : Change) : String :=
  "\x7b\"kind\":" ++ (CKind.toStr c.kind).quote
    ++ ",\"path\":[" ++ String.intercalate "," (c.path.map PathSeg.toJson) ++ "]"
    ++ ",\"rhs\":" ++ JVal.toJson c.rhs ++ "\x7d"

/-- `JSON.stringify(opts.changes)`. -/
def changesToJson (changes : List Change) : String :=
  "[" ++ String.intercalate "," (changes.map Change.toJson) ++ "]"

/-- `extend({}, opts.meta, {diff: JSON.stringify(opts.changes)})`. -/
def metaWithDiff (meta : JVal) (diffStr : String) : JVal :=
  match meta with
  | .obj fs => (JVal.obj fs).setField "diff" (.str diffStr)
  | _ => .obj [("diff", .str diffStr)]

/-- `Objecticon.prototype._write`: persist the updated object through the
datastore's fan-out (metadata annotated with the serialized diff), then
promote `opts.updated` to `opts.results`. -/
def _write (now : Nat) (st : OState) (opts : Opts) : OState × Except Failure Opts :=
  let meta := metaWithDiff opts.meta (changesToJson (opts.changes.getD []))
  let out := DataStore.put now st.idField st.drivers st.loggers opts.type_ opts.updated meta
  let st2 := { st with drivers := out.drivers, loggers := out.loggers }
  match out.callerError with
  | some e => (st2, .error (.err (.exn e)))
  | none => (st2, .ok { opts with results := opts.updated })

/-- `Objecticon.prototype._update`: the apply → type-rule → field-rule →
persist pipeline (`async.series`, first failure short-circuits). -/
def _update (now : Nat) (st : OState) (opts : Opts) : OState × Except Failure Opts :=
  match _applyChanges now opts with
  | .error f => (st, .error f)
  | .ok opts1 =>
    match _checkTypeRules st opts1 "write" with
    | some e => (st, .error (.err e))
    | none =>
      match _checkDiffRules st opts1 "write" with
      | some e => (st, .error (.err e))
      | none => _write now st opts1

/-- What an `update` call delivers to its callback: the resulting object,
an error, or an uncaught synchronous exception (which reaches no
callback). -/
inductive UpdateResult where
  | ok : JVal → UpdateResult
  | err : JsErr → UpdateResult
  | crash : String → UpdateResult
deriving Repr

/-- `Objecticon.prototype.update`: force `allowMissing`, fetch (or create)
the object, then run the `_update` pipeline. Note the pipeline contains no
`_getChanges` stage: the changeset is whatever `opts.changes` already
holds. -/
def update (now : Nat) (st : OState) (opts0 : Opts) (freshId : String) :
    OState × UpdateResult :=
  let opts := { opts0 with allowMissing := true }
  match _getObject st opts freshId with
  | (st1, .error (.err e)) => (st1, .err e)
  | (st1, .error (.crash m)) => (st1, .crash m)
  | (st1, .ok opts1) =>
    match _update now st1 opts1 with
    | (st2, .error (.err e)) => (st2, .err e)
    | (st2, .error (.crash m)) => (st2, .crash m)
    | (st2, .ok opts2) => (st2, .ok opts2.results)

/-- `Objecticon.prototype.get`: null the results slot, fetch by id, run
the read-action type-rule check, and invoke
`callback(error, opts.results)` — both slots are always delivered. -/
def get (st : OState) (opts0 : Opts) (freshId : String) :
    OState × Option Failure × JVal :=
  let opts := { opts0 with results := .null }
  match _getObject st opts freshId with
  | (st1, .error f) => (st1, some f, JVal.null)
  | (st1, .ok opts1) =>
    match _checkTypeRules st1 opts1 "read" with
    | some e => (st1, some (.err e), opts1.results)
    | none => (st1, none, opts1.results)

/-- `Objecticon.prototype.getLog`: the log-action type-rule check, then
the clamped log read. -/
def getLog (st : OState) (opts : Opts) : OState × Except Failure JVal :=
  match _checkTypeRules st opts "log" with
  | some e => (st, .error (.err e))
  | none =>
    match _getLog st opts with
    | (st2, .error f) => (st2, .error f)
    | (st2, .ok opts1) => (st2, .ok opts1.results)

/-! Concrete fixtures used by the claim witnesses and counterexamples. -/

/-- A changeset entry editing the top-level `name` field to `"bar"`. -/
def changeNameBar : Change := { kind := .E, path := [.key "name"], rhs := .str "bar" }

/-- A rule callback that always passes. -/
def passRule : Rule := fun _ => none

/-- A data driver authoritative for every read, reporting every id as
missing (an empty backend) and accepting writes. -/
def emptyBackend : StubDriver := { authoritative := "get,query,search" }

/-- A non-strict engine over the empty backend whose factory manufactures
`{name: "default"}` objects. -/
def stLax : OState :=
  { strict := false, drivers := [emptyBackend],
    create := fun _ => .obj [("name", .str "default")] }

/-! ## The claims -/

/-- C1: the claim asserts that under strict mode a field-level rule lookup
with zero registered rules denies like a whole-object check. The code
allows it: with strict mode on and no rules registered at all, a changeset
containing one Change to `name` passes `_checkDiffRules` without error,
because the `!field` guard restricts the fail-closed deny to null-field
lookups. -/
theorem checkDiffRules_strict_empty_allows_cex :
    _checkDiffRules { strict := true }
      { type_ := "widget", changes := some [changeNameBar] } "write" = none := by
  rfl

/-- C1 (amended): under strict mode, field-level rule lookups of
`_checkDiffRules` are fail-open — for a Change whose derived field name is
non-empty, zero registered rules for `(type, action, field)` means the
check for that Change passes; the strict fail-closed deny applies only to
whole-object (null-field) lookups. -/
theorem checkDiffRules_field_level_fail_open
    (st : OState) (opts : Opts) (c : Change)
    (hchanges : opts.changes = some [c])
    (hne : joinPath c.path ≠ "")
    (hempty : st.rules opts.type_.toLower ("write".toLower) (joinPath c.path) = []) :
    _checkDiffRules st opts "write" = none := by
  unfold _checkDiffRules
  rw [hchanges]
  simp only [Option.getD, List.findSome?]
  unfold _checkRules
  simp only [jsOrNull, fieldKey, if_neg hne]
  rw [hempty]
  simp

/-- Witness for C1 (amended) at a concrete input: strict engine, no rules
registered, one Change to `name`. -/
theorem checkDiffRules_field_level_fail_open_witness :
    (({ type_ := "widget", changes := some [changeNameBar] } : Opts).changes
        = some [changeNameBar])
    ∧ _checkDiffRules { strict := true }
        { type_ := "widget", changes := some [changeNameBar] } "write" = none :=
  ⟨rfl, checkDiffRules_field_level_fail_open
    { strict := true } { type_ := "widget", changes := some [changeNameBar] }
    changeNameBar rfl (by decide) rfl⟩

/-- C3: under strict mode, a whole-object check against a `(type, action)`
key with zero registered rules denies with the permission error, and
registering one passing rule for that exact key — everything else held
fixed — flips the check to allow. -/
theorem checkTypeRules_strict_fail_closed_flip
    (st : OState) (opts : Opts) (action : String) (r : Rule)
    (hstrict : st.strict = true)
    (hfield : opts.field = none)
    (hempty : st.rules opts.type_.toLower action.toLower "null" = [])
    (hpass : r { opts with action := action } = none) :
    _checkTypeRules st opts action = some (.jobj permissionDenied)
    ∧ _checkTypeRules { st with rules := addRule st.rules opts.type_ action none r }
        opts action = none := by
  constructor
  · unfold _checkTypeRules _checkRules
    simp only [hfield, jsOrNull, fieldKey, hstrict]
    rw [hempty]
    simp
  · have hkey : addRule st.rules opts.type_ action none r
        opts.type_.toLower action.toLower (fieldKey (jsOrNull opts.field)) = [r] := by
      rw [hfield]
      show addRule st.rules opts.type_ action none r
        opts.type_.toLower action.toLower "null" = [r]
      unfold addRule
      rw [if_pos ⟨rfl, rfl, rfl⟩, hempty]
      rfl
    rw [hfield] at hpass
    unfold _checkTypeRules _checkRules
    simp only [hfield, jsOrNull, fieldKey] at hkey ⊢
    rw [hkey]
    simp [hpass]

/-- Witness for C3 at a concrete input: strict engine, no rules, type
`widget`, action `write`, the always-passing rule. -/
theorem checkTypeRules_strict_fail_closed_flip_witness :
    (({ strict := true } : OState).strict = true)
    ∧ _checkTypeRules { strict := true } { type_ := "widget" } "write"
        = some (.jobj permissionDenied)
    ∧ _checkTypeRules
        { ({ strict := true } : OState) with
          rules := addRule ({ strict := true } : OState).rules "widget" "write" none passRule }
        { type_ := "widget" } "write" = none :=
  ⟨rfl,
   (checkTypeRules_strict_fail_closed_flip { strict := true } { type_ := "widget" }
      "write" passRule rfl rfl rfl rfl).1,
   (checkTypeRules_strict_fail_closed_flip { strict := true } { type_ := "widget" }
      "write" passRule rfl rfl rfl rfl).2⟩

/-- C7: the claim asserts the limit is clamped into `[0,100]`; the source
only caps from above (`Math.min(opts.limit || 10, 100)`), so a requested
limit of -5 reaches the log read as -5, below the claimed range. -/
theorem getLog_limit_negative_unclamped_cex :
    (_getLogOptions { limit := some (-5) }).limit = -5
    ∧ ¬(0 ≤ (_getLogOptions { limit := some (-5) }).limit) := by
  constructor
  · rfl
  · decide

/-- C7 (amended): the limit `_getLog` passes to the log read is capped
above at 100 and defaults to 10 when the requested limit is 0 or omitted —
so any nonnegative request stays within `[0,100]`, a request of 1000
yields 100, and a request of 0 or an omitted one yields 10; a negative
request, however, is forwarded unclamped. -/
theorem getLog_limit_clamp
    (opts : Opts) :
    ((_getLogOptions opts).limit ≤ 100)
    ∧ (∀ n : Int, 0 ≤ n → opts.limit = some n →
        0 ≤ (_getLogOptions opts).limit ∧ (_getLogOptions opts).limit ≤ 100)
    ∧ (opts.limit = none → (_getLogOptions opts).limit = 10)
    ∧ (opts.limit = some 0 → (_getLogOptions opts).limit = 10)
    ∧ (opts.limit = some 1000 → (_getLogOptions opts).limit = 100) := by
  refine ⟨?_, ?_, ?_, ?_, ?_⟩
  · simp only [_getLogOptions, getLogLimit]
    exact min_le_right _ _
  · intro n hn hl
    simp only [_getLogOptions, getLogLimit, jsOrD, hl]
    constructor
    · split <;> omega
    · exact min_le_right _ _
  · intro hl
    simp [_getLogOptions, getLogLimit, jsOrD, hl]
  · intro hl
    simp [_getLogOptions, getLogLimit, jsOrD, hl]
  · intro hl
    simp [_getLogOptions, getLogLimit, jsOrD, hl]

/-- Witness for C7 (amended) at concrete requested limits 7, omitted, 0
and 1000. -/
theorem getLog_limit_clamp_witness :
    (0 ≤ (7 : Int) ∧ (0 ≤ (_getLogOptions { limit := some 7 }).limit
        ∧ (_getLogOptions { limit := some 7 }).limit ≤ 100))
    ∧ (_getLogOptions { limit := none }).limit = 10
    ∧ (_getLogOptions { limit := some 0 }).limit = 10
    ∧ (_getLogOptions { limit := some 1000 }).limit = 100 :=
  ⟨⟨by decide, (getLog_limit_clamp { limit := some 7 }).2.1 7 (by decide) rfl⟩,
   (getLog_limit_clamp { limit := none }).2.2.1 rfl,
   (getLog_limit_clamp { limit := some 0 }).2.2.2.1 rfl,
   (getLog_limit_clamp { limit := some 1000 }).2.2.2.2 rfl⟩

/-- C8: the spec's intent is that `updatedAt` is stamped exactly when the
object already has an `updatedAt` field, but the source tests the key
`updateAt` (`typeof opts.updated.updateAt !== 'undefined'`) while
assigning `updatedAt` — a slip. Evaluated at the failing inputs: an object
that does track `updatedAt` (value `date 5`) is not stamped at time 99,
while an object carrying only the typo'd `updateAt` key gains a fresh
`updatedAt` stamp it never had. -/
theorem applyChanges_updatedAt_stamp_typo :
    (match _applyChanges 99
        { results := .obj [("id", .str "1"), ("updatedAt", .date 5)], changes := some [] } with
     | .ok o => o.updated.getField "updatedAt" = some (.date 5)
     | .error _ => False)
    ∧ (match _applyChanges 99
        { results := .obj [("id", .str "1"), ("updateAt", .date 5)], changes := some [] } with
     | .ok o => o.updated.getField "updatedAt" = some (.date 99)
     | .error _ => False) :=
  ⟨rfl, rfl⟩

/-- C9: `_applyChanges` never mutates its input object — the changes are
applied to a deep copy (`extend(true, {}, opts.results)`), so the
context's current-object snapshot is unchanged by the stage, for every
object and every changeset. -/
theorem applyChanges_never_mutates_input
    (now : Nat) (opts o2 : Opts)
    (h : _applyChanges now opts = .ok o2) :
    o2.results = opts.results := by
  unfold _applyChanges at h
  cases hc : opts.changes with
  | none => rw [hc] at h; cases h
  | some cs =>
    rw [hc] at h
    cases h
    rfl

/-- Witness for C9 at a concrete object and changeset. -/
theorem applyChanges_never_mutates_input_witness :
    ({ ({ results := .obj [("a", .num 1)], changes := some [changeNameBar] } : Opts) with
        updated := JVal.obj [("a", .num 1), ("name", .str "bar")] } : Opts).results
      = ({ results := .obj [("a", .num 1)], changes := some [changeNameBar] } : Opts).results :=
  applyChanges_never_mutates_input 3
    { results := .obj [("a", .num 1)], changes := some [changeNameBar] }
    _ rfl

/-- C10: when `get`'s fetch by id succeeds but the read-action type-rule
check fails, the caller's callback receives the fetched object alongside
the permission error — `callback(error, opts.results)` delivers both, and
the result is not withheld on rule denial. -/
theorem get_delivers_object_alongside_rule_error
    (st : OState) (opts : Opts) (freshId : String) (object : JVal)
    (hs : List StubDriver) (e : JsErr)
    (hread : readDispatch "get" opts.type_ (.str opts.id) none st.drivers
        = some (hs, .ok (some object)))
    (hrule : _checkTypeRules { st with drivers := hs }
        { opts with results := object } "read" = some e) :
    get st opts freshId = ({ st with drivers := hs }, some (.err e), object) := by
  unfold get _getObject _handleReadOperation
  simp only [hread, hrule]

/-- A data driver authoritative for `get` whose backend holds the object
`{id: "7", name: "w"}` at every id. -/
def backendWithObject : StubDriver :=
  { authoritative := "get",
    readResult := fun _ _ _ => .ok (some (.obj [("id", .str "7"), ("name", .str "w")])) }

/-- Witness for C10 at a concrete engine: strict mode with no read rules
makes the type-rule check fail, and the fetched object is still delivered
next to the permission error. -/
theorem get_delivers_object_alongside_rule_error_witness :
    (readDispatch "get" "widget" (.str "7") none [backendWithObject]
        = some ([{ backendWithObject with readCalls := [("get", "widget", .str "7", none)] }],
            .ok (some (.obj [("id", .str "7"), ("name", .str "w")]))))
    ∧ get { strict := true, drivers := [backendWithObject] } { type_ := "widget", id := "7" } "u"
        = ({ ({ strict := true, drivers := [backendWithObject] } : OState) with
              drivers := [{ backendWithObject with
                readCalls := [("get", "widget", .str "7", none)] }] },
           some (.err (.jobj permissionDenied)),
           .obj [("id", .str "7"), ("name", .str "w")]) :=
  ⟨rfl,
   get_delivers_object_alongside_rule_error
     { strict := true, drivers := [backendWithObject] } { type_ := "widget", id := "7" } "u"
     (.obj [("id", .str "7"), ("name", .str "w")])
     [{ backendWithObject with readCalls := [("get", "widget", .str "7", none)] }]
     (.jobj permissionDenied) rfl rfl⟩

/-- C2: the claim asserts an update computes its changeset from the
overlay. The code's update pipeline contains no changeset-computation
stage (`_getChanges` is only wired into `create`), so an update carrying
only an overlay `{name: "bar"}` against the missing id `"X"` reaches
`_applyChanges` with `opts.changes` undefined and throws, instead of
returning an object with `name: "bar"`. -/
theorem update_overlay_only_crashes_cex :
    (update 7 stLax
        { type_ := "widget", id := "X", overlay := some (.obj [("name", .str "bar")]) }
        "u1").2
      = .crash "TypeError: Cannot read property forEach of undefined" := by
  rfl

/-- C2 (amended): an update's changeset is taken solely from an explicitly
supplied diff (`opts.changes`); an overlay is never consulted. Updating
the nonexistent id `"X"` with an explicit diff setting `name` to `"bar"`
creates a fresh object through the factory — carrying a newly generated
uuid as its `id`, not `"X"` — patches it, and returns a result with
`name: "bar"`. -/
theorem update_explicit_diff_creates_and_patches
    (now : Nat) (freshId : String) :
    (update now stLax
        { type_ := "widget", id := "X", changes := some [changeNameBar] } freshId).2
      = .ok (.obj [("name", .str "bar"), ("id", .str freshId)]) := by
  rfl

/-! Helper lemmas about the write fan-out and the read dispatch, shared by
the multi-driver store claims. -/

theorem fanoutPut_fst_calls (drivers : List StubDriver) (type_ : String) (object : JVal) :
    (fanoutPut drivers type_ object).1.map (fun d => d.putCalls)
      = drivers.map (fun d => d.putCalls ++ [(type_, object)]) := by
  simp [fanoutPut, driverPut, List.map_map, Function.comp]

theorem fanoutPut_snd (drivers : List StubDriver) (type_ : String) (object : JVal) :
    (fanoutPut drivers type_ object).2
      = (drivers.map (fun d => d.putError)).findSome? (fun e => e) := by
  simp [fanoutPut, driverPut, List.map_map, List.findSome?_map, Function.comp]
  rfl

theorem fanoutDelete_fst_calls (drivers : List StubDriver) (type_ id : String) :
    (fanoutDelete drivers type_ id).1.map (fun d => d.deleteCalls)
      = drivers.map (fun d => d.deleteCalls ++ [(type_, id)]) := by
  simp [fanoutDelete, driverDelete, List.map_map, Function.comp]

theorem fanoutDelete_snd (drivers : List StubDriver) (type_ id : String) :
    (fanoutDelete drivers type_ id).2
      = (drivers.map (fun d => d.deleteError)).findSome? (fun e => e) := by
  simp [fanoutDelete, driverDelete, List.map_map, List.findSome?_map, Function.comp]
  rfl

theorem readDispatch_skip (operation type_ : String) (criteria : JVal)
    (options : Option ReadOptions) (a rest : List StubDriver)
    (ha : ∀ x ∈ a, (authList x).contains operation = false) :
    readDispatch operation type_ criteria options (a ++ rest)
      = (readDispatch operation type_ criteria options rest).map (fun p => (a ++ p.1, p.2)) := by
  induction a with
  | nil =>
    simp [Option.map_id]
  | cons x xs ih =>
    have hx : (authList x).contains operation = false := ha x (by simp)
    rw [List.cons_append]
    rw [readDispatch]
    rw [if_neg (by rw [hx]; simp)]
    rw [ih (fun y hy => ha y (by simp [hy]))]
    cases readDispatch operation type_ criteria options rest <;> rfl

theorem readDispatch_none (operation type_ : String) (criteria : JVal)
    (options : Option ReadOptions) (handlers : List StubDriver)
    (h : ∀ x ∈ handlers, (authList x).contains operation = false) :
    readDispatch operation type_ criteria options handlers = none := by
  induction handlers with
  | nil => rfl
  | cons x xs ih =>
    rw [readDispatch]
    rw [if_neg (by rw [h x (by simp)]; simp)]
    rw [ih (fun y hy => h y (by simp [hy]))]
    rfl

/-- C4: a `put` or `delete` against the multi-driver store invokes every
registered data driver exactly once (each driver's call log grows by
exactly the one new call, applied writes staying in place with no
rollback), the operation succeeds precisely when every driver succeeds,
and the error surfaced to the caller is the first driver error
encountered. -/
theorem write_fanout_all_once_first_error_no_rollback
    (now : Nat) (idField type_ id : String)
    (drivers loggers : List StubDriver) (object meta : JVal) :
    ((DataStore.put now idField drivers loggers type_ object meta).drivers.map
        (fun d => d.putCalls)
      = drivers.map (fun d => d.putCalls ++ [(type_, object)]))
    ∧ ((DataStore.put now idField drivers loggers type_ object meta).callerError = none
        ↔ ∀ d ∈ drivers, d.putError = none)
    ∧ ((DataStore.put now idField drivers loggers type_ object meta).callerError
        = (drivers.map (fun d => d.putError)).findSome? (fun e => e))
    ∧ ((DataStore.delete now drivers loggers type_ id meta).drivers.map
        (fun d => d.deleteCalls)
      = drivers.map (fun d => d.deleteCalls ++ [(type_, id)]))
    ∧ ((DataStore.delete now drivers loggers type_ id meta).callerError = none
        ↔ ∀ d ∈ drivers, d.deleteError = none)
    ∧ ((DataStore.delete now drivers loggers type_ id meta).callerError
        = (drivers.map (fun d => d.deleteError)).findSome? (fun e => e)) := by
  refine ⟨?_, ?_, ?_, ?_, ?_, ?_⟩
  · exact fanoutPut_fst_calls drivers type_ object
  · show (fanoutPut drivers type_ object).2 = none ↔ _
    rw [fanoutPut_snd, List.findSome?_eq_none_iff]
    simp
  · exact fanoutPut_snd drivers type_ object
  · exact fanoutDelete_fst_calls drivers type_ id
  · show (fanoutDelete drivers type_ id).2 = none ↔ _
    rw [fanoutDelete_snd, List.findSome?_eq_none_iff]
    simp
  · exact fanoutDelete_snd drivers type_ id

/-- C5: a `get`/`query`/`search` read is serviced by exactly the one
adapter whose capability tag includes the operation — the adapters around
it are left untouched, receiving no call — and a store in which no adapter
is authoritative for the operation always fails the read with
`Error('No drivers available.')`. -/
theorem read_routing_single_authoritative
    (operation type_ : String) (criteria : JVal) (options : Option ReadOptions)
    (a b handlers : List StubDriver) (d : StubDriver) :
    ((∀ x ∈ a, (authList x).contains operation = false) →
      (authList d).contains operation = true →
      (∀ x ∈ b, (authList x).contains operation = false) →
      _handleReadOperation operation (a ++ d :: b) type_ criteria options
        = (a ++ { d with readCalls := d.readCalls ++ [(operation, type_, criteria, options)] } :: b,
           d.readResult operation type_ criteria))
    ∧ ((∀ x ∈ handlers, (authList x).contains operation = false) →
      _handleReadOperation operation handlers type_ criteria options
        = (handlers, .error "No drivers available.")) := by
  constructor
  · intro ha hd _hb
    unfold _handleReadOperation
    rw [readDispatch_skip operation type_ criteria options a (d :: b) ha]
    rw [readDispatch]
    rw [if_pos hd]
    rfl
  · intro h
    unfold _handleReadOperation
    rw [readDispatch_none operation type_ criteria options handlers h]

/-- A data driver declaring no read authority at all. -/
def plainDriver : StubDriver := {}

/-- Witness for C5 at a concrete two-driver store `[plainDriver,
backendWithObject]` where only the second is authoritative for `get`, and
at a concrete store `[plainDriver]` with no authoritative adapter. -/
theorem read_routing_single_authoritative_witness :
    (_handleReadOperation "get" [plainDriver, backendWithObject] "widget" (.str "1") none
      = ([plainDriver,
          { backendWithObject with readCalls := [("get", "widget", .str "1", none)] }],
         .ok (some (.obj [("id", .str "7"), ("name", .str "w")]))))
    ∧ (_handleReadOperation "get" [plainDriver] "widget" (.str "1") none
      = ([plainDriver], .error "No drivers available.")) :=
  ⟨(read_routing_single_authoritative "get" "widget" (.str "1") none
      [plainDriver] [] [plainDriver] backendWithObject).1
      (by intro x hx; simp at hx; subst hx; rfl) rfl
      (by intro x hx; simp at hx),
   (read_routing_single_authoritative "get" "widget" (.str "1") none
      [] [] [plainDriver] backendWithObject).2
      (by intro x hx; simp at hx; subst hx; rfl)⟩

/-- C6: every `put`/`delete` attempt — driver failures included — also
attempts an audit log entry carrying the action, type, object id,
metadata and timestamp against every log adapter, and the result the
caller sees is computed from the data drivers alone: a failing log
adapter is never surfaced and cannot change the primary outcome. -/
theorem audit_log_always_attempted_never_surfaced
    (now : Nat) (idField type_ id : String)
    (drivers loggers : List StubDriver) (object meta : JVal) :
    ((DataStore.put now idField drivers loggers type_ object meta).loggers.map
        (fun l => l.putCalls)
      = loggers.map (fun l => l.putCalls
          ++ [("auditlogentry",
               auditLogEntry now "put" type_ ((object.getField idField).getD .null) meta)]))
    ∧ ((DataStore.put now idField drivers loggers type_ object meta).callerError
        = (drivers.map (fun d => d.putError)).findSome? (fun e => e))
    ∧ ((DataStore.delete now drivers loggers type_ id meta).loggers.map
        (fun l => l.putCalls)
      = loggers.map (fun l => l.putCalls
          ++ [("auditlogentry", auditLogEntry now "delete" type_ (.str id) meta)]))
    ∧ ((DataStore.delete now drivers loggers type_ id meta).callerError
        = (drivers.map (fun d => d.deleteError)).findSome? (fun e => e)) :=
  ⟨fanoutPut_fst_calls loggers "auditlogentry" _,
   fanoutPut_snd drivers type_ object,
   fanoutPut_fst_calls loggers "auditlogentry" _,
   fanoutDelete_snd drivers type_ id⟩

end Objecticon
